import Mathlib

/-!
Verification of the CutHPM frontend core (src/frontend/app_patch.js and the
stats-table module). JavaScript numbers are modelled as rationals (the claims
concern exact algebraic identities, not float rounding); JS objects holding a
tree node are modelled as a constructor carrying every field either schema
uses, with `Option` for absent fields and an explicit `null` tree for absent
subtrees. JS truthiness of numbers (0 is falsy) and of strings ("" is falsy)
is modelled explicitly.
-/

/-- A JavaScript item identifier: the code mixes numeric ids (parseInt of the
catalog text) and string ids (JSON object keys). -/
inductive JId where
  | num (n : Int)
  | str (s : String)
deriving DecidableEq, Repr

/-- JS truthiness of an identifier value: the number 0 and the empty string
are falsy. -/
def JId.truthy : JId → Bool
  | .num n => n != 0
  | .str s => s != ""

/-- JS ToString of an identifier, as used when an id becomes an object key
or is passed through String(itemId). -/
def JId.toKey : JId → String
  | .num n => toString n
  | .str s => s

/-- Semantics of `x || d` for an optional JS number `x`: absent or zero
(falsy) falls back to the default. -/
def jsOr (x : Option Rat) (d : Rat) : Rat :=
  match x with
  | none => d
  | some v => if v = 0 then d else v

/-- Truthiness of an optional JS string field (absent or "" is falsy). -/
def strTruthy : Option String → Bool
  | none => false
  | some s => s != ""

/-- Truthiness of an optional JS identifier field. -/
def idTruthy : Option JId → Bool
  | none => false
  | some i => i.truthy

mutual
/-- A raw tree node as received from the producer, carrying the fields of
both recognized schemas: current (`item_id`, `length`, `width`, `height`,
`cut_dir`, `cut_pos`, `left_pattern`, `right_pattern`) and legacy (`kind`,
`box`, `axis`, `pos`, `children`). `null` models an absent/undefined node. -/
inductive JTree where
  | null : JTree
  | node (item_id : Option JId)
         (length width height : Option Rat)
         (cut_dir : Option String) (cut_pos : Option Rat)
         (left_pattern : JTree) (right_pattern : JTree)
         (kind : Option String) (box : Option (Rat × Rat × Rat))
         (axis : Option String) (pos : Option Rat)
         (children : JTreeList) : JTree

/-- The `children` array of a legacy node. -/
inductive JTreeList where
  | nil : JTreeList
  | cons (head : JTree) (tail : JTreeList) : JTreeList
end

/-- Whether a subtree slot is absent (JS falsy object test). -/
def JTree.isNull : JTree → Bool
  | .null => true
  | _ => false

/-- One emitted placement: `addBox(x, y, z, L, W, H, color, opacity, itemId)`
projected to the geometric data the spec's PlacedItem carries (the mesh,
material and color arguments drive the external THREE renderer and carry no
geometric information). -/
structure PlacedItem where
  itemId : Option JId
  x : Rat
  y : Rat
  z : Rat
  l : Rat
  w : Rat
  h : Rat
deriving DecidableEq, Repr

/-- `addBox` from app_patch.js: refuses any box with a nonpositive dimension
(returns null, i.e. emits nothing), otherwise emits one placement at the
given origin with the given dimensions. -/
def addBox (x y z L W H : Rat) (itemId : Option JId) : List PlacedItem :=
  if L ≤ 0 ∨ W ≤ 0 ∨ H ≤ 0 then [] else [⟨itemId, x, y, z, L, W, H⟩]

/-- `drawTreeNew` from app_patch.js: current-schema reconstruction. Effective
dimensions fall back per coordinate to the block dimensions through `||`; a
node with truthy `item_id` and no truthy `cut_dir` is a leaf; a node with a
truthy `cut_dir` and at least one subtree recurses, offsetting the right
subtree's origin by `cut_pos + kerf` along V→x, D→y, H→z. -/
def drawTreeNew : JTree → (Rat × Rat × Rat) → Rat → (Rat × Rat × Rat) → List PlacedItem
  | .null, _, _, _ => []
  | .node item_id len wid hei cut_dir cut_pos lp rp _kind _box _axis _pos _children,
      bd, kerf, o =>
    let L := jsOr len bd.1
    let W := jsOr wid bd.2.1
    let H := jsOr hei bd.2.2
    if idTruthy item_id && !(strTruthy cut_dir) then
      addBox o.1 o.2.1 o.2.2 L W H item_id
    else if strTruthy cut_dir && (!lp.isNull || !rp.isNull) then
      let p := jsOr cut_pos 0
      let newO : Rat × Rat × Rat :=
        if cut_dir = some "V" then (o.1 + p + kerf, o.2.1, o.2.2)
        else if cut_dir = some "D" then (o.1, o.2.1 + p + kerf, o.2.2)
        else if cut_dir = some "H" then (o.1, o.2.1, o.2.2 + p + kerf)
        else o
      drawTreeNew lp bd kerf o ++ drawTreeNew rp bd kerf newO
    else []

mutual
/-- `drawTree` from app_patch.js: schema dispatch and legacy-schema
reconstruction. Presence of `length` or `cut_dir` selects the current schema;
otherwise a legacy `kind = leaf` node with truthy `item_id` emits its `box`
(defaulting to the block dimensions), and a legacy `kind = cut` node with at
least two children recurses, offsetting the second child's origin by
`pos + kerf` along H→x, V→y, D→z. -/
def drawTree : JTree → (Rat × Rat × Rat) → Rat → (Rat × Rat × Rat) → List PlacedItem
  | .null, _, _, _ => []
  | t@(.node item_id len _wid _hei cut_dir _cut_pos _lp _rp kind box axis pos children),
      bd, kerf, o =>
    if len.isSome || cut_dir.isSome then
      drawTreeNew t bd kerf o
    else
      let d := box.getD bd
      if kind == some "leaf" && idTruthy item_id then
        addBox o.1 o.2.1 o.2.2 d.1 d.2.1 d.2.2 item_id
      else if kind == some "cut" then
        let p := jsOr pos 0
        if axis = some "H" then
          drawTreeFirstTwo children bd kerf o (o.1 + p + kerf, o.2.1, o.2.2)
        else if axis = some "V" then
          drawTreeFirstTwo children bd kerf o (o.1, o.2.1 + p + kerf, o.2.2)
        else if axis = some "D" then
          drawTreeFirstTwo children bd kerf o (o.1, o.2.1, o.2.2 + p + kerf)
        else []
      else []

/-- Recursion of `drawTree` into `children[0]` and `children[1]` (the source
requires `children.length >= 2` and touches only the first two). -/
def drawTreeFirstTwo : JTreeList → (Rat × Rat × Rat) → Rat → (Rat × Rat × Rat) →
    (Rat × Rat × Rat) → List PlacedItem
  | .cons c0 (.cons c1 _), bd, kerf, o0, o1 =>
    drawTree c0 bd kerf o0 ++ drawTree c1 bd kerf o1
  | _, _, _, _, _ => []
end

/-- Total volume of a placement list. -/
def sumVol (l : List PlacedItem) : Rat :=
  (l.map (fun p => p.l * p.w * p.h)).sum

/-- One row of the per-item statistics map: `{id, count, volume}`. The `id`
field stores the raw item identifier as first seen; counts are JS numbers. -/
structure ItemStat where
  id : JId
  count : Rat
  volume : Rat
deriving DecidableEq, Repr

/-- The mutable `stats` record threaded through `countItems`, restricted to
the fields that traversal mutates. The per-item map is an association list
keyed by the JS object-key coercion (ToString) of the item id, in insertion
order, matching JS object key enumeration. -/
structure StatsAcc where
  items : List (String × ItemStat)
  totalFilled : Rat
deriving DecidableEq, Repr

/-- One leaf hit inside `countItems`: create the zero entry if the key is
absent, then increment its count by 1 and its volume and the running
`totalFilled` by the leaf volume. -/
def bumpLeaf (acc : StatsAcc) (id : JId) (vol : Rat) : StatsAcc :=
  let k := id.toKey
  let items :=
    if (acc.items.lookup k).isSome then
      acc.items.map (fun p =>
        if p.1 == k then (p.1, { p.2 with count := p.2.count + 1, volume := p.2.volume + vol })
        else p)
    else
      acc.items ++ [(k, { id := id, count := 1, volume := vol })]
  { items := items, totalFilled := acc.totalFilled + vol }

mutual
/-- The `countItems` traversal of `calculateStatisticsNew`: a node with
truthy `item_id` and no truthy `cut_dir` is counted as a current-schema leaf
with volume `(length||0)*(width||0)*(height||0)`; a node with `kind = leaf`
and truthy `item_id` is counted as a legacy leaf with its `box` volume
(note: both branches fire on a legacy leaf); then recurse into
`left_pattern`, `right_pattern` and every element of `children`. -/
def countItems : JTree → StatsAcc → StatsAcc
  | .null, acc => acc
  | .node item_id len wid hei cut_dir _cut_pos lp rp kind box _axis _pos children,
      acc =>
    let acc :=
      if idTruthy item_id && !(strTruthy cut_dir) then
        match item_id with
        | some i => bumpLeaf acc i (jsOr len 0 * jsOr wid 0 * jsOr hei 0)
        | none => acc
      else acc
    let acc :=
      if kind == some "leaf" && idTruthy item_id then
        match item_id with
        | some i =>
          let d := box.getD (0, 0, 0)
          bumpLeaf acc i (d.1 * d.2.1 * d.2.2)
        | none => acc
      else acc
    let acc := countItems lp acc
    let acc := countItems rp acc
    countItemsList children acc

/-- `children.forEach(countItems)`. -/
def countItemsList : JTreeList → StatsAcc → StatsAcc
  | .nil, acc => acc
  | .cons c cs, acc => countItemsList cs (countItems c acc)
end

/-- A parsed catalog item line `id,l,w,h,qty`. -/
structure CatalogItem where
  id : Int
  l : Rat
  w : Rat
  h : Rat
  qty : Int
deriving DecidableEq, Repr

/-- The full statistics record produced by either aggregation path. -/
structure Stats where
  items : List (String × ItemStat)
  totalFilled : Rat
  totalWaste : Rat
  totalVolume : Rat
  fillPercent : Rat
  wastePercent : Rat
deriving DecidableEq, Repr

/-- `calculateStatisticsNew(tree, items, blockDims)` from app_patch.js: the
fallback Statistics Aggregator. Traverses the tree with `countItems`, then
derives waste and the two percentages (guarded by `totalVolume > 0`). The
`items` catalog parameter is accepted and ignored, as in the source. -/
def calculateStatisticsNew (tree : JTree) (_items : List CatalogItem)
    (blockDims : Rat × Rat × Rat) : Stats :=
  let totalVolume := blockDims.1 * blockDims.2.1 * blockDims.2.2
  let acc := countItems tree { items := [], totalFilled := 0 }
  let totalWaste := totalVolume - acc.totalFilled
  { items := acc.items
    totalFilled := acc.totalFilled
    totalWaste := totalWaste
    totalVolume := totalVolume
    fillPercent := if totalVolume > 0 then acc.totalFilled / totalVolume * 100 else 0
    wastePercent := if totalVolume > 0 then totalWaste / totalVolume * 100 else 0 }

/-- JS ToNumber on the integer-string fragment relevant to item keys: the
empty string converts to 0, an optionally negated digit string converts to
its decimal value (leading zeros allowed), anything else is NaN (`none`).
Used to model the loose comparison `it.id == itemId` between a numeric
catalog id and a string key. -/
def jsToNumber (s : String) : Option Rat :=
  if s = "" then some 0
  else
    let digvalue : List Char → Option Rat := fun cs =>
      if cs ≠ [] ∧ cs.all Char.isDigit then
        some ((cs.foldl (fun a c => a * 10 + (c.toNat - 48)) 0 : Nat) : Rat)
      else none
    match s.toList with
    | '-' :: rest => (digvalue rest).map (fun v => -v)
    | cs => digvalue cs

/-- The loose equality `it.id == itemId` between the numeric catalog id and
an object key string: JS converts the string with ToNumber and compares
numerically (NaN compares false). -/
def jsLooseEqNumStr (n : Int) (s : String) : Bool :=
  match jsToNumber s with
  | some v => v == (n : Rat)
  | none => false

/-- Replace the value stored under key `k` by `v`, leaving other entries
unchanged. -/
def updEntry (k : String) (v : ItemStat) (p : String × ItemStat) : String × ItemStat :=
  if p.1 == k then (p.1, v) else p

/-- Assignment `stats.items[k] = v` on the association-list model of a JS
object: replace the value in place if the key exists, else append. -/
def setKey (items : List (String × ItemStat)) (k : String) (v : ItemStat) :
    List (String × ItemStat) :=
  if (items.lookup k).isSome then
    items.map (updEntry k v)
  else
    items ++ [(k, v)]

/-- The producer response fields the authoritative statistics path reads. An
`item_counts` JSON object is a list of string-keyed counts in enumeration
order. -/
structure ApiResult where
  filled_volume : Option Rat
  utilization : Option Rat
  item_counts : Option (List (String × Rat))
deriving DecidableEq, Repr

/-- The body of the `item_counts` loop: look the key up in the catalog with
the loose comparison `it.id == itemId`, take the declared l*w*h of the first
match (0 when no catalog item matches), and store
`{id: itemId, count, volume: declaredVolume * count}`. -/
def runEntry (items : List CatalogItem) (k : String) (c : Rat) : ItemStat :=
  let itemData := items.find? (fun it => jsLooseEqNumStr it.id k)
  let volume := match itemData with
    | some it => it.l * it.w * it.h
    | none => 0
  { id := .str k, count := c, volume := volume * c }

/-- The authoritative statistics computation of the run handler in
app_patch.js (initPatch, stats block): totals come from the producer fields
(`filled_volume`, `utilization`), and for every key of `item_counts` the
per-item volume is the declared catalog volume of the first catalog item
whose id loosely equals the key, multiplied by the producer count. -/
def computeRunStats (result : ApiResult) (items : List CatalogItem)
    (blockL blockW blockH : Rat) : Stats :=
  let totalVolume := blockL * blockW * blockH
  let totalFilled := jsOr result.filled_volume 0
  let base : Stats :=
    { items := []
      totalFilled := totalFilled
      totalWaste := totalVolume - totalFilled
      totalVolume := totalVolume
      fillPercent := jsOr result.utilization 0
      wastePercent := 100 - jsOr result.utilization 0 }
  match result.item_counts with
  | none => base
  | some counts =>
    { base with
      items := counts.foldl (fun m kc => setKey m kc.1 (runEntry items kc.1 kc.2)) [] }


/-- JS 32-bit wrap: ToInt32 of an exact integer. -/
def toInt32 (n : Int) : Int :=
  let m := n % 4294967296
  if m ≥ 2147483648 then m - 4294967296 else m

/-- One step of the id hash `hash = charCode + ((hash << 5) - hash)`: the
shift works on the 32-bit truncation of hash, the subtraction on the exact
value. -/
def hashStep (h : Int) (c : Char) : Int :=
  (c.toNat : Int) + (toInt32 (toInt32 h * 32) - h)

/-- The rotate-and-subtract string hash shared by both color functions,
folding over the character codes in order. -/
def strHash (s : String) : Int :=
  s.toList.foldl hashStep 0

/-- Math.abs on integers. -/
def jsAbs (n : Int) : Int := if n < 0 then -n else n

/-- The fixed 10-entry hue palette. -/
def huePalette : List Int := [0, 30, 60, 120, 180, 210, 240, 270, 300, 330]

/-- `getItemColor(itemId, itemIndex)` from app_patch.js, projected to the
HSL triple `((hue+offset)/360, saturation/100, lightness/100)` that the
source passes to the external THREE.Color().setHSL conversion. -/
def getItemColor (itemId : String) (itemIndex : Nat) : Rat × Rat × Rat :=
  let hue := huePalette.getD (itemIndex % huePalette.length) 0
  let hash := strHash itemId
  let hueOffset := jsAbs hash % 20 - 10
  let saturation := 75 + jsAbs hash % 20
  let lightness := 50 + jsAbs hash % 15
  (((hue + hueOffset : Int) : Rat) / 360, ((saturation : Int) : Rat) / 100,
    ((lightness : Int) : Rat) / 100)

/-- The `hue2rgb` helper of `hslToHex` in the stats-table module. -/
def hue2rgb (p q t : Rat) : Rat :=
  let t := if t < 0 then t + 1 else t
  let t := if t > 1 then t - 1 else t
  if t < 1 / 6 then p + (q - p) * 6 * t
  else if t < 1 / 2 then q
  else if t < 2 / 3 then p + (q - p) * (2 / 3 - t) * 6
  else p

/-- Math.round (half toward positive infinity), exact on rationals. -/
def jsRound (x : Rat) : Int := (x + 1 / 2).floor

/-- The `toHex` byte renderer of `hslToHex`: round the channel to 0..255 and
print two lowercase hex digits. -/
def toHexByte (x : Rat) : String :=
  let cs := Nat.toDigits 16 (jsRound (x * 255)).toNat
  if cs.length = 1 then "0" ++ String.mk cs else String.mk cs

/-- `hslToHex(h, s, l)` from the stats-table module: standard HSL to RGB
conversion followed by hex rendering. -/
def hslToHex (h s l : Rat) : String :=
  if s = 0 then
    "#" ++ toHexByte l ++ toHexByte l ++ toHexByte l
  else
    let q := if l < 1 / 2 then l * (1 + s) else l + s - l * s
    let p := 2 * l - q
    let r := hue2rgb p q (h + 1 / 3)
    let g := hue2rgb p q h
    let b := hue2rgb p q (h - 1 / 3)
    "#" ++ toHexByte r ++ toHexByte g ++ toHexByte b

/-- `getItemColorHex(itemId, itemIndex)` from the stats-table module: the
same palette, hash and HSL formula as `getItemColor` applied to
`String(itemId)`, rendered through `hslToHex`. -/
def getItemColorHex (itemId : JId) (itemIndex : Nat) : String :=
  let idStr := itemId.toKey
  let hue := huePalette.getD (itemIndex % huePalette.length) 0
  let hash := strHash idStr
  let hueOffset := jsAbs hash % 20 - 10
  let saturation := 75 + jsAbs hash % 20
  let lightness := 50 + jsAbs hash % 15
  hslToHex (((hue + hueOffset : Int) : Rat) / 360) (((saturation : Int) : Rat) / 100)
    (((lightness : Int) : Rat) / 100)

/-- The color assignment loop of the run handler over `items_placed`: the
first time an id is seen it receives the next first-seen index
(`Object.keys(itemColorMap).length`) and the color
`getItemColor(String(itemId), index)`; later occurrences reuse the entry. -/
def renderColorMap (placedIds : List JId) : List (String × (Rat × Rat × Rat)) :=
  placedIds.foldl (fun m id =>
    let k := id.toKey
    if (m.lookup k).isSome then m
    else m ++ [(k, getItemColor k m.length)]) []

/-- The color column of `updateStatsTable`: the catalog items in input order,
each colored by `getItemColorHex(item.id, index)` where `index` is the
catalog position. -/
def tableColorMap (items : List CatalogItem) : List (Int × String) :=
  (items.enum).map (fun p => (p.2.id, getItemColorHex (.num p.2.id) p.1))

/-- The `node` record carried by a sequence step. -/
structure SeqNode where
  depth : Option Nat
  volume : Option Rat
deriving DecidableEq, Repr

/-- One producer-supplied operation step. -/
structure SeqStep where
  seq : Int
  operation : String
  description : String
  node : SeqNode
deriving DecidableEq, Repr

/-- One producer-declared conflict record. -/
structure JsConflict where
  description : String
deriving DecidableEq, Repr

/-- The `cutting_tree` payload consumed by the Sequence Formatter. -/
structure CuttingTreeData where
  sequence : Option (List SeqStep)
  total_nodes : Option Int
  total_cuts : Option Int
  total_items : Option Int
  conflicts : Option (List JsConflict)
deriving DecidableEq, Repr

/-- One rendered table row of the cutting program report: the step's `seq`
and `operation` are displayed unchanged, the description is indented two
spaces per `depth`, the volume cell shows the value or a placeholder for a
falsy volume, and rows alternate shading by position parity. -/
structure ReportRow where
  seq : Int
  operation : String
  descriptionIndent : Nat
  description : String
  volumeCell : Option Rat
  shaded : Bool
deriving DecidableEq, Repr

/-- The structured content of the HTML report `buildCuttingTreeHTML` emits. -/
structure CutReport where
  totalNodes : Int
  totalCuts : Int
  totalItems : Int
  conflictsShown : List String
  noConflicts : Bool
  rows : List ReportRow
deriving DecidableEq, Repr

/-- `x || 0` for an optional JS integer field. -/
def jsOrInt (x : Option Int) (d : Int) : Int :=
  match x with
  | none => d
  | some v => if v = 0 then d else v

/-- `buildCuttingTreeHTML(cuttingTree)` from app_patch.js, projected to the
report content: `none` models the empty-string early return for an absent
tree or absent `sequence`. Conflicts are surfaced verbatim through their
`description` when the list is nonempty, otherwise the no-conflicts banner is
shown; the steps are rendered in the given order with their `seq`,
`operation` and `description` unchanged. -/
def buildCuttingTreeHTML (cuttingTree : Option CuttingTreeData) : Option CutReport :=
  match cuttingTree with
  | none => none
  | some ct =>
    match ct.sequence with
    | none => none
    | some steps =>
      let hasConflicts := match ct.conflicts with
        | some cs => cs.length > 0
        | none => false
      some
        { totalNodes := jsOrInt ct.total_nodes 0
          totalCuts := jsOrInt ct.total_cuts 0
          totalItems := jsOrInt ct.total_items 0
          conflictsShown :=
            if hasConflicts then (ct.conflicts.getD []).map (fun c => c.description)
            else []
          noConflicts := !hasConflicts
          rows := steps.enum.map (fun p =>
            { seq := p.2.seq
              operation := p.2.operation
              descriptionIndent := 2 * p.2.node.depth.getD 0
              description := p.2.description
              volumeCell :=
                match p.2.node.volume with
                | some v => if v = 0 then none else some v
                | none => none
              shaded := p.1 % 2 = 0 }) }

/-- A canonical current-schema leaf node. -/
def newLeafNode (id : JId) (a b c : Rat) : JTree :=
  .node (some id) (some a) (some b) (some c) none none .null .null
    none none none none .nil

/-- A canonical current-schema cut node. -/
def newCutNode (d : String) (p : Option Rat) (lp rp : JTree) : JTree :=
  .node none none none none (some d) p lp rp none none none none .nil

/-- A canonical legacy-schema leaf node. -/
def legacyLeafNode (id : JId) (a b c : Rat) : JTree :=
  .node (some id) none none none none none .null .null
    (some "leaf") (some (a, b, c)) none none .nil

/-- A canonical legacy-schema cut node. -/
def legacyCutNode (ax : String) (p : Option Rat) (c0 c1 : JTree)
    (rest : JTreeList) : JTree :=
  .node none none none none none none .null .null
    (some "cut") none (some ax) p (.cons c0 (.cons c1 rest))

/-- A current-schema node with no cut fields and possibly missing leaf
fields. -/
def currentLeafNode (id : Option JId) (len wid hei : Option Rat) : JTree :=
  .node id len wid hei none none .null .null none none none none .nil

/-- The right-subtree origin a truthy cut direction produces. -/
def cutOffset (d : String) (p kerf : Rat) (o : Rat × Rat × Rat) : Rat × Rat × Rat :=
  if d = "V" then (o.1 + p + kerf, o.2.1, o.2.2)
  else if d = "D" then (o.1, o.2.1 + p + kerf, o.2.2)
  else if d = "H" then (o.1, o.2.1, o.2.2 + p + kerf)
  else o

/-- The axis correspondence under which the two schemas' reconstructions
coincide: a legacy axis label on the left behaves like the current label on
the right (both map to the same offset coordinate). -/
inductive AxisMatch : String → String → Prop
  | hv : AxisMatch "H" "V"
  | vd : AxisMatch "V" "D"
  | dh : AxisMatch "D" "H"

/-- Structural equivalence of a legacy-schema tree and a current-schema
tree: leaves carry the same truthy item id and the same nonzero dimensions;
cuts carry corresponding axis labels, the same optional position, and
equivalent children. -/
inductive SchemaEquiv : JTree → JTree → Prop
  | leaf (id : JId) (a b c : Rat) (hid : id.truthy = true)
      (ha : a ≠ 0) (hb : b ≠ 0) (hc : c ≠ 0) :
      SchemaEquiv (legacyLeafNode id a b c) (newLeafNode id a b c)
  | cut (axL axC : String) (p : Option Rat) (l1 r1 l2 r2 : JTree) (rest : JTreeList)
      (hax : AxisMatch axL axC)
      (hl : SchemaEquiv l1 l2) (hr : SchemaEquiv r1 r2) :
      SchemaEquiv (legacyCutNode axL p l1 r1 rest) (newCutNode axC p l2 r2)

/-- A canonical current-schema tree composed only of Cut and Leaf nodes, with
truthy leaf ids, strictly positive leaf dimensions and truthy cut
directions. -/
inductive GoodNew : JTree → Prop
  | nul : GoodNew .null
  | leaf (id : JId) (a b c : Rat) (hid : id.truthy = true)
      (ha : 0 < a) (hb : 0 < b) (hc : 0 < c) :
      GoodNew (newLeafNode id a b c)
  | cut (d : String) (hd : d ≠ "") (p : Option Rat) (lp rp : JTree)
      (hl : GoodNew lp) (hr : GoodNew rp) :
      GoodNew (newCutNode d p lp rp)

lemma jsOr_some_zero (v : Rat) : jsOr (some v) 0 = v := by
  unfold jsOr
  split <;> simp_all

lemma drawTreeNew_cutV (p kerf x y z : Rat) (lp rp : JTree) (bd : Rat × Rat × Rat) :
    drawTreeNew (newCutNode "V" (some p) lp rp) bd kerf (x, y, z)
      = drawTreeNew lp bd kerf (x, y, z) ++ drawTreeNew rp bd kerf (x + p + kerf, y, z) := by
  cases lp <;> cases rp <;>
    simp [drawTreeNew, newCutNode, idTruthy, strTruthy, JTree.isNull, jsOr_some_zero]

lemma drawTreeNew_cutD (p kerf x y z : Rat) (lp rp : JTree) (bd : Rat × Rat × Rat) :
    drawTreeNew (newCutNode "D" (some p) lp rp) bd kerf (x, y, z)
      = drawTreeNew lp bd kerf (x, y, z) ++ drawTreeNew rp bd kerf (x, y + p + kerf, z) := by
  cases lp <;> cases rp <;>
    simp [drawTreeNew, newCutNode, idTruthy, strTruthy, JTree.isNull, jsOr_some_zero]

lemma drawTreeNew_cutH (p kerf x y z : Rat) (lp rp : JTree) (bd : Rat × Rat × Rat) :
    drawTreeNew (newCutNode "H" (some p) lp rp) bd kerf (x, y, z)
      = drawTreeNew lp bd kerf (x, y, z) ++ drawTreeNew rp bd kerf (x, y, z + p + kerf) := by
  cases lp <;> cases rp <;>
    simp [drawTreeNew, newCutNode, idTruthy, strTruthy, JTree.isNull, jsOr_some_zero]

lemma drawTree_cutH (p kerf x y z : Rat) (c0 c1 : JTree) (rest : JTreeList)
    (bd : Rat × Rat × Rat) :
    drawTree (legacyCutNode "H" (some p) c0 c1 rest) bd kerf (x, y, z)
      = drawTree c0 bd kerf (x, y, z) ++ drawTree c1 bd kerf (x + p + kerf, y, z) := by
  simp [drawTree, drawTreeFirstTwo, legacyCutNode, idTruthy, jsOr_some_zero]

lemma drawTree_cutV (p kerf x y z : Rat) (c0 c1 : JTree) (rest : JTreeList)
    (bd : Rat × Rat × Rat) :
    drawTree (legacyCutNode "V" (some p) c0 c1 rest) bd kerf (x, y, z)
      = drawTree c0 bd kerf (x, y, z) ++ drawTree c1 bd kerf (x, y + p + kerf, z) := by
  simp [drawTree, drawTreeFirstTwo, legacyCutNode, idTruthy, jsOr_some_zero]

lemma drawTree_cutD (p kerf x y z : Rat) (c0 c1 : JTree) (rest : JTreeList)
    (bd : Rat × Rat × Rat) :
    drawTree (legacyCutNode "D" (some p) c0 c1 rest) bd kerf (x, y, z)
      = drawTree c0 bd kerf (x, y, z) ++ drawTree c1 bd kerf (x, y, z + p + kerf) := by
  simp [drawTree, drawTreeFirstTwo, legacyCutNode, idTruthy, jsOr_some_zero]

/-- C1. The claim as stated is false: the axis-to-dimension mapping
V→x, D→y, H→z holds only for the current schema. In the legacy schema a cut
with `axis = V`, `pos = 4` and `kerf = 1` offsets the right child's origin in
y, not x: the right placement's x-origin is 0, not 0 + 4 + 1. -/
theorem axis_mapping_counterexample :
    drawTree
      (legacyCutNode "V" (some 4)
        (legacyLeafNode (.num 1) 2 2 2) (legacyLeafNode (.num 2) 3 3 3) .nil)
      (10, 10, 10) 1 (0, 0, 0)
      = [⟨some (.num 1), 0, 0, 0, 2, 2, 2⟩, ⟨some (.num 2), 0, 5, 0, 3, 3, 3⟩]
    ∧ (0 : Rat) ≠ 0 + 4 + 1 := by
  constructor
  · norm_num [drawTree, drawTreeFirstTwo, legacyCutNode, legacyLeafNode, addBox,
      idTruthy, JId.truthy, jsOr]
    decide
  · norm_num

/-- C1 (amended). For a canonical Cut node with position p and kerf k,
reconstruction recurses into the left subtree at the current origin unchanged
and into the right subtree at an origin offset by p + k along exactly one
coordinate; in the current schema the mapping is V→x, D→y, H→z, while in the
legacy schema it is H→x, V→y, D→z. -/
theorem axis_mapping_amended (p kerf x y z : Rat) (lp rp c0 c1 : JTree)
    (rest : JTreeList) (bd : Rat × Rat × Rat) :
    (drawTreeNew (newCutNode "V" (some p) lp rp) bd kerf (x, y, z)
      = drawTreeNew lp bd kerf (x, y, z) ++ drawTreeNew rp bd kerf (x + p + kerf, y, z))
    ∧ (drawTreeNew (newCutNode "D" (some p) lp rp) bd kerf (x, y, z)
      = drawTreeNew lp bd kerf (x, y, z) ++ drawTreeNew rp bd kerf (x, y + p + kerf, z))
    ∧ (drawTreeNew (newCutNode "H" (some p) lp rp) bd kerf (x, y, z)
      = drawTreeNew lp bd kerf (x, y, z) ++ drawTreeNew rp bd kerf (x, y, z + p + kerf))
    ∧ (drawTree (legacyCutNode "H" (some p) c0 c1 rest) bd kerf (x, y, z)
      = drawTree c0 bd kerf (x, y, z) ++ drawTree c1 bd kerf (x + p + kerf, y, z))
    ∧ (drawTree (legacyCutNode "V" (some p) c0 c1 rest) bd kerf (x, y, z)
      = drawTree c0 bd kerf (x, y, z) ++ drawTree c1 bd kerf (x, y + p + kerf, z))
    ∧ (drawTree (legacyCutNode "D" (some p) c0 c1 rest) bd kerf (x, y, z)
      = drawTree c0 bd kerf (x, y, z) ++ drawTree c1 bd kerf (x, y, z + p + kerf)) :=
  ⟨drawTreeNew_cutV p kerf x y z lp rp bd,
   drawTreeNew_cutD p kerf x y z lp rp bd,
   drawTreeNew_cutH p kerf x y z lp rp bd,
   drawTree_cutH p kerf x y z c0 c1 rest bd,
   drawTree_cutV p kerf x y z c0 c1 rest bd,
   drawTree_cutD p kerf x y z c0 c1 rest bd⟩

lemma jsOr_some_ne {v : Rat} (h : v ≠ 0) (d : Rat) : jsOr (some v) d = v := by
  simp [jsOr, h]

lemma newLeafNode_eq (id : JId) (a b c : Rat) :
    newLeafNode id a b c = currentLeafNode (some id) (some a) (some b) (some c) := rfl

lemma drawTree_legacyLeaf (id : JId) (a b c : Rat) (hid : id.truthy = true)
    (bd : Rat × Rat × Rat) (kerf : Rat) (o : Rat × Rat × Rat) :
    drawTree (legacyLeafNode id a b c) bd kerf o
      = addBox o.1 o.2.1 o.2.2 a b c (some id) := by
  simp [drawTree, legacyLeafNode, idTruthy, hid]

lemma drawTreeNew_leaf (id : JId) (len wid hei : Option Rat) (hid : id.truthy = true)
    (bd : Rat × Rat × Rat) (kerf : Rat) (o : Rat × Rat × Rat) :
    drawTreeNew (currentLeafNode (some id) len wid hei) bd kerf o
      = addBox o.1 o.2.1 o.2.2 (jsOr len bd.1) (jsOr wid bd.2.1) (jsOr hei bd.2.2)
          (some id) := by
  simp [drawTreeNew, currentLeafNode, idTruthy, strTruthy, hid]

lemma drawTreeNew_cutV_opt (cp : Option Rat) (kerf x y z : Rat) (lp rp : JTree)
    (bd : Rat × Rat × Rat) :
    drawTreeNew (newCutNode "V" cp lp rp) bd kerf (x, y, z)
      = drawTreeNew lp bd kerf (x, y, z)
        ++ drawTreeNew rp bd kerf (x + jsOr cp 0 + kerf, y, z) := by
  cases lp <;> cases rp <;>
    simp [drawTreeNew, newCutNode, idTruthy, strTruthy, JTree.isNull]

lemma drawTreeNew_cutD_opt (cp : Option Rat) (kerf x y z : Rat) (lp rp : JTree)
    (bd : Rat × Rat × Rat) :
    drawTreeNew (newCutNode "D" cp lp rp) bd kerf (x, y, z)
      = drawTreeNew lp bd kerf (x, y, z)
        ++ drawTreeNew rp bd kerf (x, y + jsOr cp 0 + kerf, z) := by
  cases lp <;> cases rp <;>
    simp [drawTreeNew, newCutNode, idTruthy, strTruthy, JTree.isNull]

lemma drawTreeNew_cutH_opt (cp : Option Rat) (kerf x y z : Rat) (lp rp : JTree)
    (bd : Rat × Rat × Rat) :
    drawTreeNew (newCutNode "H" cp lp rp) bd kerf (x, y, z)
      = drawTreeNew lp bd kerf (x, y, z)
        ++ drawTreeNew rp bd kerf (x, y, z + jsOr cp 0 + kerf) := by
  cases lp <;> cases rp <;>
    simp [drawTreeNew, newCutNode, idTruthy, strTruthy, JTree.isNull]

lemma drawTree_cutH_opt (cp : Option Rat) (kerf x y z : Rat) (c0 c1 : JTree)
    (rest : JTreeList) (bd : Rat × Rat × Rat) :
    drawTree (legacyCutNode "H" cp c0 c1 rest) bd kerf (x, y, z)
      = drawTree c0 bd kerf (x, y, z)
        ++ drawTree c1 bd kerf (x + jsOr cp 0 + kerf, y, z) := by
  simp [drawTree, drawTreeFirstTwo, legacyCutNode, idTruthy]

lemma drawTree_cutV_opt (cp : Option Rat) (kerf x y z : Rat) (c0 c1 : JTree)
    (rest : JTreeList) (bd : Rat × Rat × Rat) :
    drawTree (legacyCutNode "V" cp c0 c1 rest) bd kerf (x, y, z)
      = drawTree c0 bd kerf (x, y, z)
        ++ drawTree c1 bd kerf (x, y + jsOr cp 0 + kerf, z) := by
  simp [drawTree, drawTreeFirstTwo, legacyCutNode, idTruthy]

lemma drawTree_cutD_opt (cp : Option Rat) (kerf x y z : Rat) (c0 c1 : JTree)
    (rest : JTreeList) (bd : Rat × Rat × Rat) :
    drawTree (legacyCutNode "D" cp c0 c1 rest) bd kerf (x, y, z)
      = drawTree c0 bd kerf (x, y, z)
        ++ drawTree c1 bd kerf (x, y, z + jsOr cp 0 + kerf) := by
  simp [drawTree, drawTreeFirstTwo, legacyCutNode, idTruthy]

/-- C3. The claim as stated is false: with the SAME axis label on both
sides, structurally equivalent trees reconstruct differently, because the
legacy path maps V to a y offset while the current path maps V to an x
offset. -/
theorem schema_equivalence_counterexample :
    drawTree
      (legacyCutNode "V" (some 6)
        (legacyLeafNode (.num 3) 2 2 2) (legacyLeafNode (.num 4) 3 3 3) .nil)
      (20, 20, 20) 2 (0, 0, 0)
    ≠ drawTreeNew
      (newCutNode "V" (some 6)
        (newLeafNode (.num 3) 2 2 2) (newLeafNode (.num 4) 3 3 3))
      (20, 20, 20) 2 (0, 0, 0) := by
  norm_num [drawTree, drawTreeNew, drawTreeFirstTwo, legacyCutNode, legacyLeafNode,
    newCutNode, newLeafNode, addBox, idTruthy, JId.truthy, strTruthy, JTree.isNull, jsOr]
  decide

/-- C3 (amended). A legacy-schema tree and a current-schema tree that are
structurally equivalent up to the axis translation legacy H to current V,
legacy V to current D, legacy D to current H (and whose leaf dimensions are
nonzero) reconstruct to the same PlacedItem list. -/
theorem schema_equivalence_amended (lt ct : JTree) (h : SchemaEquiv lt ct)
    (bd : Rat × Rat × Rat) (kerf : Rat) (o : Rat × Rat × Rat) :
    drawTree lt bd kerf o = drawTreeNew ct bd kerf o := by
  induction h generalizing o with
  | leaf id a b c hid ha hb hc =>
    rw [drawTree_legacyLeaf id a b c hid, newLeafNode_eq,
      drawTreeNew_leaf id _ _ _ hid, jsOr_some_ne ha, jsOr_some_ne hb, jsOr_some_ne hc]
  | cut axL axC p l1 r1 l2 r2 rest hax hl hr ihl ihr =>
    obtain ⟨x, y, z⟩ := o
    cases hax with
    | hv => rw [drawTree_cutH_opt, drawTreeNew_cutV_opt, ihl, ihr]
    | vd => rw [drawTree_cutV_opt, drawTreeNew_cutD_opt, ihl, ihr]
    | dh => rw [drawTree_cutD_opt, drawTreeNew_cutH_opt, ihl, ihr]

/-- Witness for C3 (amended): a concrete legacy H cut and its current-schema
V counterpart reconstruct identically. -/
theorem schema_equivalence_amended_witness :
    drawTree
      (legacyCutNode "H" (some 3)
        (legacyLeafNode (.num 5) 1 1 1) (legacyLeafNode (.num 6) 2 2 2) .nil)
      (9, 9, 9) 1 (0, 0, 0)
    = drawTreeNew
      (newCutNode "V" (some 3)
        (newLeafNode (.num 5) 1 1 1) (newLeafNode (.num 6) 2 2 2))
      (9, 9, 9) 1 (0, 0, 0) :=
  schema_equivalence_amended _ _
    (SchemaEquiv.cut "H" "V" (some 3) _ _ _ _ .nil AxisMatch.hv
      (SchemaEquiv.leaf (.num 5) 1 1 1 (by decide) (by norm_num) (by norm_num) (by norm_num))
      (SchemaEquiv.leaf (.num 6) 2 2 2 (by decide) (by norm_num) (by norm_num) (by norm_num)))
    (9, 9, 9) 1 (0, 0, 0)

lemma drawTreeNew_cut_any (d : String) (hd : d ≠ "") (cp : Option Rat)
    (lp rp : JTree) (bd : Rat × Rat × Rat) (kerf : Rat) (o : Rat × Rat × Rat) :
    drawTreeNew (newCutNode d cp lp rp) bd kerf o
      = drawTreeNew lp bd kerf o
        ++ drawTreeNew rp bd kerf (cutOffset d (jsOr cp 0) kerf o) := by
  cases lp <;> cases rp <;>
    simp [drawTreeNew, newCutNode, idTruthy, strTruthy, JTree.isNull, cutOffset, hd]

lemma sumVol_append (a b : List PlacedItem) : sumVol (a ++ b) = sumVol a + sumVol b := by
  simp [sumVol]

lemma bumpLeaf_totalFilled (acc : StatsAcc) (id : JId) (vol : Rat) :
    (bumpLeaf acc id vol).totalFilled = acc.totalFilled + vol := by
  simp [bumpLeaf]

lemma countItems_newLeaf (id : JId) (a b c : Rat) (hid : id.truthy = true)
    (acc : StatsAcc) :
    countItems (newLeafNode id a b c) acc = bumpLeaf acc id (a * b * c) := by
  simp [countItems, countItemsList, newLeafNode, idTruthy, strTruthy, hid, jsOr_some_zero]

lemma countItems_newCut (d : String) (cp : Option Rat) (lp rp : JTree)
    (acc : StatsAcc) :
    countItems (newCutNode d cp lp rp) acc = countItems rp (countItems lp acc) := by
  simp [countItems, countItemsList, newCutNode, idTruthy, strTruthy]

lemma drawTreeNew_newLeaf_pos (id : JId) (a b c : Rat) (hid : id.truthy = true)
    (ha : 0 < a) (hb : 0 < b) (hc : 0 < c) (bd : Rat × Rat × Rat) (kerf : Rat)
    (o : Rat × Rat × Rat) :
    drawTreeNew (newLeafNode id a b c) bd kerf o
      = [⟨some id, o.1, o.2.1, o.2.2, a, b, c⟩] := by
  rw [newLeafNode_eq, drawTreeNew_leaf id _ _ _ hid,
    jsOr_some_ne (ne_of_gt ha), jsOr_some_ne (ne_of_gt hb), jsOr_some_ne (ne_of_gt hc)]
  simp [addBox, not_le.mpr ha, not_le.mpr hb, not_le.mpr hc]

lemma countItems_totalFilled_eq_sumVol (t : JTree) (h : GoodNew t) :
    ∀ (acc : StatsAcc) (bd : Rat × Rat × Rat) (kerf : Rat) (o : Rat × Rat × Rat),
      (countItems t acc).totalFilled
        = acc.totalFilled + sumVol (drawTreeNew t bd kerf o) := by
  induction h with
  | nul => intro acc bd kerf o; simp [countItems, drawTreeNew, sumVol]
  | leaf id a b c hid ha hb hc =>
    intro acc bd kerf o
    rw [countItems_newLeaf id a b c hid, bumpLeaf_totalFilled,
      drawTreeNew_newLeaf_pos id a b c hid ha hb hc]
    simp [sumVol]
  | cut d hd p lp rp hl hr ihl ihr =>
    intro acc bd kerf o
    rw [countItems_newCut d p lp rp acc, drawTreeNew_cut_any d hd, sumVol_append,
      ihr _ bd kerf (cutOffset d (jsOr p 0) kerf o), ihl _ bd kerf o]
    ring

/-- C2. The claim as stated is false: a leaf with a zero dimension is
reconstructed with that dimension replaced by the block dimension (the `||`
fallback), so its placed volume is 7*2*3 = 42 while the fallback aggregator
counts its volume as 0*2*3 = 0. -/
theorem volume_conservation_counterexample :
    sumVol (drawTreeNew (newLeafNode (.str "9") 0 2 3) (7, 7, 7) 0 (0, 0, 0)) = 42
    ∧ (calculateStatisticsNew (newLeafNode (.str "9") 0 2 3) [] (7, 7, 7)).totalFilled = 0
    ∧ (42 : Rat) ≠ 0 := by
  refine ⟨?_, ?_, by norm_num⟩
  · norm_num [drawTreeNew, newLeafNode, addBox, idTruthy, JId.truthy, strTruthy,
      jsOr, sumVol, (by decide : ¬ ("9" : String) = "")]
  · norm_num [calculateStatisticsNew, countItems, countItemsList, newLeafNode, bumpLeaf,
      idTruthy, JId.truthy, strTruthy, jsOr, (by decide : ¬ ("9" : String) = "")]

/-- C2 (amended). For every canonical current-schema tree of Cut and Leaf
nodes whose leaves have truthy ids and strictly positive dimensions, the sum
of the volumes of the PlacedItems emitted by reconstruction equals the
totalFilled computed by the fallback Statistics Aggregator on the same tree
and block dimensions. -/
theorem volume_conservation_amended (t : JTree) (h : GoodNew t)
    (cat : List CatalogItem) (bd : Rat × Rat × Rat) (kerf : Rat) (o : Rat × Rat × Rat) :
    sumVol (drawTreeNew t bd kerf o) = (calculateStatisticsNew t cat bd).totalFilled := by
  have := countItems_totalFilled_eq_sumVol t h ⟨[], 0⟩ bd kerf o
  simp [calculateStatisticsNew, this]

/-- Witness for C2 (amended): a concrete two-leaf V cut conserves volume
between reconstruction and the fallback aggregator. -/
theorem volume_conservation_amended_witness :
    sumVol (drawTreeNew
        (newCutNode "V" (some 2)
          (newLeafNode (.num 1) 1 2 3) (newLeafNode (.num 2) 2 2 2))
        (8, 8, 8) 1 (0, 0, 0))
      = (calculateStatisticsNew
          (newCutNode "V" (some 2)
            (newLeafNode (.num 1) 1 2 3) (newLeafNode (.num 2) 2 2 2))
          [] (8, 8, 8)).totalFilled :=
  volume_conservation_amended _
    (GoodNew.cut "V" (by decide) (some 2) _ _
      (GoodNew.leaf (.num 1) 1 2 3 (by decide) (by norm_num) (by norm_num) (by norm_num))
      (GoodNew.leaf (.num 2) 2 2 2 (by decide) (by norm_num) (by norm_num) (by norm_num)))
    [] (8, 8, 8) 1 (0, 0, 0)

lemma addBox_eq_nil {L W H : Rat} (h : L ≤ 0 ∨ W ≤ 0 ∨ H ≤ 0) (x y z : Rat)
    (i : Option JId) : addBox x y z L W H i = [] := by
  simp [addBox, h]

/-- C6. The claim as stated is false: a leaf with `length = 0` is NOT
dropped — the zero dimension is falsy, so the `||` fallback replaces it with
the block dimension (11) and a placement is emitted. -/
theorem degenerate_leaf_counterexample :
    drawTreeNew (currentLeafNode (some (.num 4)) (some 0) (some 5) (some 6))
      (11, 11, 11) 0 (0, 0, 0)
      = [⟨some (.num 4), 0, 0, 0, 11, 5, 6⟩]
    ∧ ([⟨some (.num 4), 0, 0, 0, 11, 5, 6⟩] : List PlacedItem) ≠ [] := by decide

/-- C6 (amended). A leaf with any strictly negative dimension yields no
PlacedItem (the negative value survives the `||` fallback and fails the
addBox positivity check), reconstruction does not raise, and the rest of
the tree renders normally; a zero (or missing) dimension is instead replaced
by the block dimension before the check, so such a leaf may still emit. -/
theorem degenerate_leaf_amended (id : Option JId) (len wid hei : Option Rat)
    (dneg : Rat) (hneg : dneg < 0)
    (hmem : len = some dneg ∨ wid = some dneg ∨ hei = some dneg)
    (bd : Rat × Rat × Rat) (kerf p x y z : Rat) (rp : JTree) :
    drawTreeNew (currentLeafNode id len wid hei) bd kerf (x, y, z) = []
    ∧ drawTreeNew (newCutNode "V" (some p) (currentLeafNode id len wid hei) rp)
        bd kerf (x, y, z)
      = drawTreeNew rp bd kerf (x + p + kerf, y, z) := by
  have h1 : drawTreeNew (currentLeafNode id len wid hei) bd kerf (x, y, z) = [] := by
    by_cases hid : idTruthy id = true
    · rcases hmem with h | h | h <;> subst h <;>
        simp [drawTreeNew, currentLeafNode, strTruthy, hid] <;>
        rw [jsOr_some_ne hneg.ne] <;>
        [exact addBox_eq_nil (Or.inl hneg.le) _ _ _ _;
         exact addBox_eq_nil (Or.inr (Or.inl hneg.le)) _ _ _ _;
         exact addBox_eq_nil (Or.inr (Or.inr hneg.le)) _ _ _ _]
    · simp [drawTreeNew, currentLeafNode, strTruthy, hid]
  refine ⟨h1, ?_⟩
  rw [drawTreeNew_cutV p kerf x y z _ rp bd, h1]
  simp

/-- Witness for C6 (amended): a concrete leaf with length -5 emits nothing,
and a cut whose left child is that leaf renders exactly its right child. -/
theorem degenerate_leaf_amended_witness :
    drawTreeNew (currentLeafNode (some (.num 3)) (some (-5)) (some 2) (some 2))
      (6, 6, 6) 1 (0, 0, 0) = []
    ∧ drawTreeNew
        (newCutNode "V" (some 2)
          (currentLeafNode (some (.num 3)) (some (-5)) (some 2) (some 2))
          (newLeafNode (.num 4) 1 1 1))
        (6, 6, 6) 1 (0, 0, 0)
      = drawTreeNew (newLeafNode (.num 4) 1 1 1) (6, 6, 6) 1 (0 + 2 + 1, 0, 0) :=
  degenerate_leaf_amended (some (.num 3)) (some (-5)) (some 2) (some 2) (-5)
    (by norm_num) (Or.inl rfl) (6, 6, 6) 1 2 0 0 0 (newLeafNode (.num 4) 1 1 1)

/-- C10. A current-schema node whose `item_id` is falsy (the number 0 or the
empty string) and that carries no `cut_dir` is not treated as a leaf: the
reconstruction emits nothing for it and the fallback aggregator's traversal
leaves the statistics accumulator unchanged. -/
theorem falsy_item_id_ignored (id : JId) (hid : id.truthy = false)
    (len wid hei : Option Rat) (bd : Rat × Rat × Rat) (kerf : Rat)
    (o : Rat × Rat × Rat) (acc : StatsAcc) :
    drawTreeNew (currentLeafNode (some id) len wid hei) bd kerf o = []
    ∧ countItems (currentLeafNode (some id) len wid hei) acc = acc := by
  constructor
  · simp [drawTreeNew, currentLeafNode, idTruthy, strTruthy, hid]
  · simp [countItems, countItemsList, currentLeafNode, idTruthy, strTruthy, hid]

/-- Witness for C10: both falsy identifier forms, the number 0 and the empty
string, are ignored by reconstruction and aggregation. -/
theorem falsy_item_id_ignored_witness :
    (drawTreeNew (currentLeafNode (some (.num 0)) (some 2) (some 3) (some 4))
        (5, 5, 5) 0 (0, 0, 0) = []
    ∧ countItems (currentLeafNode (some (.num 0)) (some 2) (some 3) (some 4))
        ⟨[], 0⟩ = ⟨[], 0⟩)
    ∧ (drawTreeNew (currentLeafNode (some (.str "")) (some 2) (some 3) (some 4))
        (5, 5, 5) 0 (0, 0, 0) = []
    ∧ countItems (currentLeafNode (some (.str "")) (some 2) (some 3) (some 4))
        ⟨[], 0⟩ = ⟨[], 0⟩) :=
  ⟨falsy_item_id_ignored (.num 0) (by decide) (some 2) (some 3) (some 4)
      (5, 5, 5) 0 (0, 0, 0) ⟨[], 0⟩,
   falsy_item_id_ignored (.str "") (by decide) (some 2) (some 3) (some 4)
      (5, 5, 5) 0 (0, 0, 0) ⟨[], 0⟩⟩

/-- C4. Evaluation at the failing input: a legacy-schema leaf
`{kind: leaf, item_id: 7, box: [2,3,4]}` satisfies BOTH leaf branches of
`countItems` (its truthy `item_id` with no `cut_dir` also matches the
current-schema condition), so its per-item count is incremented twice — the
count reported is 2, not 1, while the volume and totalFilled stay correct
because the spurious branch contributes `0*0*0`. -/
theorem legacy_leaf_double_count :
    (calculateStatisticsNew (legacyLeafNode (.num 7) 2 3 4) [] (10, 10, 10)).items.lookup "7"
      = some ⟨.num 7, 2, 24⟩
    ∧ (calculateStatisticsNew (legacyLeafNode (.num 7) 2 3 4) [] (10, 10, 10)).totalFilled = 24
    ∧ (2 : Rat) ≠ 1 := by
  refine ⟨?_, ?_, by norm_num⟩
  · norm_num [calculateStatisticsNew, countItems, countItemsList, bumpLeaf, jsOr,
      legacyLeafNode, idTruthy, strTruthy, JId.truthy, JId.toKey, List.lookup]
    rfl
  · norm_num [calculateStatisticsNew, countItems, countItemsList, bumpLeaf, jsOr,
      legacyLeafNode, idTruthy, strTruthy, JId.truthy, JId.toKey]

/-- C5. The claim as stated is false for the authoritative mode: with
producer fields `filled_volume = 0` and `utilization = 50` on a 1x1x1 block,
the reported fillPercent is the producer's 50, not
`100 * totalFilled / totalVolume = 0`. -/
theorem stats_formula_counterexample :
    (computeRunStats ⟨some 0, some 50, none⟩ [] 1 1 1).fillPercent = 50
    ∧ 100 * (computeRunStats ⟨some 0, some 50, none⟩ [] 1 1 1).totalFilled
        / (computeRunStats ⟨some 0, some 50, none⟩ [] 1 1 1).totalVolume = 0
    ∧ (50 : Rat) ≠ 0 := by
  refine ⟨?_, ?_, by norm_num⟩ <;> norm_num [computeRunStats, jsOr]

/-- C5 (amended). In both modes `totalVolume = blockL*blockW*blockH` and
`totalWaste = totalVolume - totalFilled`. In the fallback mode with positive
totalVolume, `fillPercent = 100*totalFilled/totalVolume` and
`wastePercent = 100 - fillPercent`, and for every block whose totalVolume is
not positive (zero in any dimension, or negative) both percentages are 0. In the authoritative mode the code instead
reports the producer's `utilization` (0 when absent) as fillPercent and
`100 - utilization` as wastePercent, with no zero-volume guard. -/
theorem stats_formulas_amended (result : ApiResult) (cat cat2 : List CatalogItem)
    (L W H : Rat) (tree : JTree) (bd : Rat × Rat × Rat)
    (hpos : 0 < bd.1 * bd.2.1 * bd.2.2) :
    ((computeRunStats result cat L W H).totalVolume = L * W * H
    ∧ (computeRunStats result cat L W H).totalWaste
        = (computeRunStats result cat L W H).totalVolume
          - (computeRunStats result cat L W H).totalFilled
    ∧ (computeRunStats result cat L W H).fillPercent = jsOr result.utilization 0
    ∧ (computeRunStats result cat L W H).wastePercent
        = 100 - (computeRunStats result cat L W H).fillPercent)
    ∧ ((calculateStatisticsNew tree cat2 bd).totalVolume = bd.1 * bd.2.1 * bd.2.2
    ∧ (calculateStatisticsNew tree cat2 bd).totalWaste
        = (calculateStatisticsNew tree cat2 bd).totalVolume
          - (calculateStatisticsNew tree cat2 bd).totalFilled
    ∧ (calculateStatisticsNew tree cat2 bd).fillPercent
        = 100 * (calculateStatisticsNew tree cat2 bd).totalFilled
          / (calculateStatisticsNew tree cat2 bd).totalVolume
    ∧ (calculateStatisticsNew tree cat2 bd).wastePercent
        = 100 - (calculateStatisticsNew tree cat2 bd).fillPercent)
    ∧ (∀ bd0 : Rat × Rat × Rat, ¬ 0 < bd0.1 * bd0.2.1 * bd0.2.2 →
        (calculateStatisticsNew tree cat2 bd0).fillPercent = 0
        ∧ (calculateStatisticsNew tree cat2 bd0).wastePercent = 0) := by
  obtain ⟨fv, ut, ic⟩ := result
  have hne : bd.1 * bd.2.1 * bd.2.2 ≠ 0 := ne_of_gt hpos
  refine ⟨?_, ⟨?_, ?_, ?_, ?_⟩, ?_⟩
  · cases ic <;> simp [computeRunStats]
  · simp [calculateStatisticsNew]
  · simp [calculateStatisticsNew]
  · simp only [calculateStatisticsNew, hpos, if_pos]
    field_simp
    ring
  · simp only [calculateStatisticsNew, hpos, if_pos]
    field_simp
    ring
  · intro bd0 h
    simp [calculateStatisticsNew, h]

/-- Witness for C5 (amended): concrete instantiation on a positive-volume
block, matching the spec's end-to-end example numbers in the authoritative
mode. -/
theorem stats_formulas_amended_witness :
    ((computeRunStats ⟨some 300000, some 25, none⟩ [] 200 100 60).totalVolume
        = 200 * 100 * 60
    ∧ (computeRunStats ⟨some 300000, some 25, none⟩ [] 200 100 60).totalWaste
        = (computeRunStats ⟨some 300000, some 25, none⟩ [] 200 100 60).totalVolume
          - (computeRunStats ⟨some 300000, some 25, none⟩ [] 200 100 60).totalFilled
    ∧ (computeRunStats ⟨some 300000, some 25, none⟩ [] 200 100 60).fillPercent
        = jsOr (some 25) 0
    ∧ (computeRunStats ⟨some 300000, some 25, none⟩ [] 200 100 60).wastePercent
        = 100 - (computeRunStats ⟨some 300000, some 25, none⟩ [] 200 100 60).fillPercent)
    ∧ ((calculateStatisticsNew (newLeafNode (.num 1) 1 1 1) [] (2, 3, 4)).totalVolume
        = 2 * 3 * 4
    ∧ (calculateStatisticsNew (newLeafNode (.num 1) 1 1 1) [] (2, 3, 4)).totalWaste
        = (calculateStatisticsNew (newLeafNode (.num 1) 1 1 1) [] (2, 3, 4)).totalVolume
          - (calculateStatisticsNew (newLeafNode (.num 1) 1 1 1) [] (2, 3, 4)).totalFilled
    ∧ (calculateStatisticsNew (newLeafNode (.num 1) 1 1 1) [] (2, 3, 4)).fillPercent
        = 100 * (calculateStatisticsNew (newLeafNode (.num 1) 1 1 1) [] (2, 3, 4)).totalFilled
          / (calculateStatisticsNew (newLeafNode (.num 1) 1 1 1) [] (2, 3, 4)).totalVolume
    ∧ (calculateStatisticsNew (newLeafNode (.num 1) 1 1 1) [] (2, 3, 4)).wastePercent
        = 100 - (calculateStatisticsNew (newLeafNode (.num 1) 1 1 1) [] (2, 3, 4)).fillPercent)
    ∧ ((calculateStatisticsNew (newLeafNode (.num 1) 1 1 1) [] (1, 0, 1)).fillPercent = 0
        ∧ (calculateStatisticsNew (newLeafNode (.num 1) 1 1 1) [] (1, 0, 1)).wastePercent = 0) :=
  ⟨(stats_formulas_amended ⟨some 300000, some 25, none⟩ [] [] 200 100 60
      (newLeafNode (.num 1) 1 1 1) (2, 3, 4) (by norm_num)).1,
   (stats_formulas_amended ⟨some 300000, some 25, none⟩ [] [] 200 100 60
      (newLeafNode (.num 1) 1 1 1) (2, 3, 4) (by norm_num)).2.1,
   (stats_formulas_amended ⟨some 300000, some 25, none⟩ [] [] 200 100 60
      (newLeafNode (.num 1) 1 1 1) (2, 3, 4) (by norm_num)).2.2 (1, 0, 1) (by norm_num)⟩

lemma updEntry_self (k : String) (v v1 : ItemStat) : updEntry k v (k, v1) = (k, v) := by
  simp [updEntry]

lemma updEntry_ne {k1 k : String} (h : k1 ≠ k) (v v1 : ItemStat) :
    updEntry k v (k1, v1) = (k1, v1) := by
  simp [updEntry, beq_eq_false_iff_ne.mpr h]

lemma lookup_map_upd (m : List (String × ItemStat)) (k : String) (v : ItemStat) :
    ((m.map (updEntry k v)).lookup k) = (m.lookup k).map (fun _ => v) := by
  induction m with
  | nil => simp
  | cons hd t ih =>
    obtain ⟨k1, v1⟩ := hd
    by_cases h : k1 = k
    · subst h
      rw [List.map_cons, updEntry_self]
      simp [List.lookup, ih]
    · have hb2 : (k == k1) = false := beq_eq_false_iff_ne.mpr (fun he => h he.symm)
      rw [List.map_cons, updEntry_ne h]
      simp [List.lookup, hb2, ih]

lemma lookup_map_upd_ne (m : List (String × ItemStat)) (k k' : String) (v : ItemStat)
    (hne : k' ≠ k) :
    ((m.map (updEntry k v)).lookup k') = m.lookup k' := by
  induction m with
  | nil => simp
  | cons hd t ih =>
    obtain ⟨k1, v1⟩ := hd
    by_cases h : k1 = k
    · subst h
      have hb : (k' == k1) = false := beq_eq_false_iff_ne.mpr hne
      rw [List.map_cons, updEntry_self]
      simp [List.lookup, hb, ih]
    · rw [List.map_cons, updEntry_ne h]
      by_cases h2 : k' = k1
      · subst h2
        simp [List.lookup, ih]
      · have hb2 : (k' == k1) = false := beq_eq_false_iff_ne.mpr h2
        simp [List.lookup, hb2, ih]

lemma lookup_append_single (m : List (String × ItemStat)) (k : String) (v : ItemStat)
    (hnone : m.lookup k = none) :
    ((m ++ [(k, v)]).lookup k) = some v := by
  induction m with
  | nil => simp [List.lookup]
  | cons hd t ih =>
    obtain ⟨k1, v1⟩ := hd
    by_cases h : k = k1
    · subst h
      simp [List.lookup] at hnone
    · have hb : (k == k1) = false := beq_eq_false_iff_ne.mpr h
      simp only [List.lookup, List.cons_append, hb] at hnone ⊢
      exact ih hnone

lemma lookup_append_single_ne (m : List (String × ItemStat)) (k k' : String)
    (v : ItemStat) (hne : k' ≠ k) :
    ((m ++ [(k, v)]).lookup k') = m.lookup k' := by
  induction m with
  | nil =>
    have hb : (k' == k) = false := beq_eq_false_iff_ne.mpr hne
    simp [List.lookup, hb]
  | cons hd t ih =>
    obtain ⟨k1, v1⟩ := hd
    by_cases h : k' = k1
    · subst h
      simp [List.lookup]
    · have hb : (k' == k1) = false := beq_eq_false_iff_ne.mpr h
      simp [List.lookup, hb, ih]

lemma lookup_setKey_self (m : List (String × ItemStat)) (k : String) (v : ItemStat) :
    (setKey m k v).lookup k = some v := by
  unfold setKey
  by_cases h : (m.lookup k).isSome
  · simp only [h, if_true]
    rw [lookup_map_upd]
    obtain ⟨w, hw⟩ := Option.isSome_iff_exists.mp h
    simp [hw]
  · simp only [h, if_false]
    exact lookup_append_single m k v (Option.not_isSome_iff_eq_none.mp h)

lemma lookup_setKey_ne (m : List (String × ItemStat)) (k k' : String) (v : ItemStat)
    (hne : k' ≠ k) :
    (setKey m k v).lookup k' = m.lookup k' := by
  unfold setKey
  by_cases h : (m.lookup k).isSome
  · simp only [h, if_true]
    exact lookup_map_upd_ne m k k' v hne
  · simp only [h, if_false]
    exact lookup_append_single_ne m k k' v hne

lemma lookup_foldl_setKey_ne (items : List CatalogItem) (l : List (String × Rat))
    (k : String) (hk : ∀ kc ∈ l, kc.1 ≠ k) (m : List (String × ItemStat)) :
    ((l.foldl (fun acc kc => setKey acc kc.1 (runEntry items kc.1 kc.2)) m).lookup k)
      = m.lookup k := by
  induction l generalizing m with
  | nil => simp
  | cons hd t ih =>
    simp only [List.foldl_cons]
    rw [ih (fun kc hkc => hk kc (List.mem_cons_of_mem hd hkc)),
      lookup_setKey_ne _ _ _ _ (Ne.symm (hk hd (List.mem_cons_self hd t)))]

/-- C7. In authoritative mode, for every key of the producer-supplied
`item_counts` (the JSON object's keys are strings; a numeric catalog id
matches its string rendering through the loose comparison `it.id == key`),
the per-item volume reported is the catalog item's declared l*w*h times the
producer count — not a value recomputed from placements — and the entry is
keyed consistently by the string key. -/
theorem authoritative_item_volume (result : ApiResult) (items : List CatalogItem)
    (L W H : Rat) (counts : List (String × Rat)) (k : String) (c : Rat)
    (it : CatalogItem)
    (hic : result.item_counts = some counts)
    (hnodup : (counts.map Prod.fst).Nodup)
    (hmem : (k, c) ∈ counts)
    (hfind : items.find? (fun x => jsLooseEqNumStr x.id k) = some it) :
    ((computeRunStats result items L W H).items).lookup k
      = some ⟨.str k, c, it.l * it.w * it.h * c⟩ := by
  obtain ⟨s, t, rfl⟩ := List.append_of_mem hmem
  obtain ⟨fv, ut, ic⟩ := result
  simp only at hic
  subst hic
  have hkt : ∀ kc ∈ t, kc.1 ≠ k := by
    intro kc hkc heq
    rw [List.map_append] at hnodup
    have h2 := hnodup.of_append_right
    rw [List.map_cons] at h2
    rcases List.nodup_cons.mp h2 with ⟨hk_not, _⟩
    have hmm : kc.1 ∈ t.map Prod.fst := List.mem_map_of_mem Prod.fst hkc
    rw [heq] at hmm
    exact hk_not hmm
  show (((s ++ (k, c) :: t).foldl
      (fun m kc => setKey m kc.1 (runEntry items kc.1 kc.2)) []).lookup k) = _
  rw [List.foldl_append, List.foldl_cons, lookup_foldl_setKey_ne items t k hkt,
    lookup_setKey_self]
  simp [runEntry, hfind]

/-- Witness for C7: the spec's end-to-end example — catalog item
`{id:1, l:100, w:50, h:30}` with `item_counts = {"1": 2}` reports volume
100*50*30*2 = 300000 under the string key "1". -/
theorem authoritative_item_volume_witness :
    ((computeRunStats ⟨some 300000, some 25, some [("1", 2)]⟩
        [⟨1, 100, 50, 30, 2⟩] 200 100 60).items).lookup "1"
      = some ⟨.str "1", 2, 100 * 50 * 30 * 2⟩ :=
  authoritative_item_volume ⟨some 300000, some 25, some [("1", 2)]⟩
    [⟨1, 100, 50, 30, 2⟩] 200 100 60 [("1", 2)] "1" 2 ⟨1, 100, 50, 30, 2⟩
    rfl (by decide) (by decide) (by decide)

/-- C8. The Sequence Formatter renders the steps in exactly the producer's
order with their `seq`, `operation` and `description` values unchanged,
surfaces every entry of `conflicts` verbatim through its description, and
reports no conflicts exactly when the conflicts list is empty or absent. -/
theorem sequence_formatter_passthrough (ct : CuttingTreeData) (steps : List SeqStep)
    (h : ct.sequence = some steps) :
    (buildCuttingTreeHTML (some ct)).map (fun r => r.rows.map (fun row => row.seq))
      = some (steps.map (fun st => st.seq))
    ∧ (buildCuttingTreeHTML (some ct)).map (fun r => r.rows.map (fun row => row.operation))
      = some (steps.map (fun st => st.operation))
    ∧ (buildCuttingTreeHTML (some ct)).map (fun r => r.rows.map (fun row => row.description))
      = some (steps.map (fun st => st.description))
    ∧ (buildCuttingTreeHTML (some ct)).map (fun r => r.conflictsShown)
      = some ((ct.conflicts.getD []).map (fun c => c.description))
    ∧ (buildCuttingTreeHTML (some ct)).map (fun r => r.noConflicts)
      = some ((ct.conflicts.getD []).length == 0) := by
  refine ⟨?_, ?_, ?_, ?_, ?_⟩
  · simp only [buildCuttingTreeHTML, h, Option.map_some', Option.some.injEq, List.map_map]
    have he : ((fun row => ReportRow.seq row) ∘ fun p : Nat × SeqStep =>
        ({ seq := p.2.seq, operation := p.2.operation,
           descriptionIndent := 2 * p.2.node.depth.getD 0,
           description := p.2.description,
           volumeCell := match p.2.node.volume with
             | some v => if v = 0 then none else some v
             | none => none,
           shaded := p.1 % 2 = 0 } : ReportRow))
        = (fun st : SeqStep => st.seq) ∘ Prod.snd := rfl
    rw [he, ← List.map_map, List.enum_map_snd]
  · simp only [buildCuttingTreeHTML, h, Option.map_some', Option.some.injEq, List.map_map]
    have he : ((fun row => ReportRow.operation row) ∘ fun p : Nat × SeqStep =>
        ({ seq := p.2.seq, operation := p.2.operation,
           descriptionIndent := 2 * p.2.node.depth.getD 0,
           description := p.2.description,
           volumeCell := match p.2.node.volume with
             | some v => if v = 0 then none else some v
             | none => none,
           shaded := p.1 % 2 = 0 } : ReportRow))
        = (fun st : SeqStep => st.operation) ∘ Prod.snd := rfl
    rw [he, ← List.map_map, List.enum_map_snd]
  · simp only [buildCuttingTreeHTML, h, Option.map_some', Option.some.injEq, List.map_map]
    have he : ((fun row => ReportRow.description row) ∘ fun p : Nat × SeqStep =>
        ({ seq := p.2.seq, operation := p.2.operation,
           descriptionIndent := 2 * p.2.node.depth.getD 0,
           description := p.2.description,
           volumeCell := match p.2.node.volume with
             | some v => if v = 0 then none else some v
             | none => none,
           shaded := p.1 % 2 = 0 } : ReportRow))
        = (fun st : SeqStep => st.description) ∘ Prod.snd := rfl
    rw [he, ← List.map_map, List.enum_map_snd]
  · cases hc : ct.conflicts with
    | none => simp [buildCuttingTreeHTML, h, hc]
    | some cs => cases cs <;> simp [buildCuttingTreeHTML, h, hc]
  · cases hc : ct.conflicts with
    | none => simp [buildCuttingTreeHTML, h, hc]
    | some cs => cases cs <;> simp [buildCuttingTreeHTML, h, hc]

/-- Witness for C8: a concrete two-step program with one declared conflict. -/
theorem sequence_formatter_passthrough_witness :
    (buildCuttingTreeHTML (some
        { sequence := some
            [⟨1, "START", "block 100x50x30", ⟨some 0, some 150000⟩⟩,
             ⟨2, "CUT", "V at 40", ⟨some 1, none⟩⟩]
          total_nodes := some 3
          total_cuts := some 1
          total_items := some 2
          conflicts := some [⟨"cut 2 exits the block"⟩] })).map
        (fun r => r.rows.map (fun row => row.seq))
      = some (List.map (fun st => st.seq)
          [⟨1, "START", "block 100x50x30", ⟨some 0, some 150000⟩⟩,
           (⟨2, "CUT", "V at 40", ⟨some 1, none⟩⟩ : SeqStep)])
    ∧ (buildCuttingTreeHTML (some
        { sequence := some
            [⟨1, "START", "block 100x50x30", ⟨some 0, some 150000⟩⟩,
             ⟨2, "CUT", "V at 40", ⟨some 1, none⟩⟩]
          total_nodes := some 3
          total_cuts := some 1
          total_items := some 2
          conflicts := some [⟨"cut 2 exits the block"⟩] })).map
        (fun r => r.rows.map (fun row => row.operation))
      = some (List.map (fun st => st.operation)
          [⟨1, "START", "block 100x50x30", ⟨some 0, some 150000⟩⟩,
           (⟨2, "CUT", "V at 40", ⟨some 1, none⟩⟩ : SeqStep)])
    ∧ (buildCuttingTreeHTML (some
        { sequence := some
            [⟨1, "START", "block 100x50x30", ⟨some 0, some 150000⟩⟩,
             ⟨2, "CUT", "V at 40", ⟨some 1, none⟩⟩]
          total_nodes := some 3
          total_cuts := some 1
          total_items := some 2
          conflicts := some [⟨"cut 2 exits the block"⟩] })).map
        (fun r => r.rows.map (fun row => row.description))
      = some (List.map (fun st => st.description)
          [⟨1, "START", "block 100x50x30", ⟨some 0, some 150000⟩⟩,
           (⟨2, "CUT", "V at 40", ⟨some 1, none⟩⟩ : SeqStep)])
    ∧ (buildCuttingTreeHTML (some
        { sequence := some
            [⟨1, "START", "block 100x50x30", ⟨some 0, some 150000⟩⟩,
             ⟨2, "CUT", "V at 40", ⟨some 1, none⟩⟩]
          total_nodes := some 3
          total_cuts := some 1
          total_items := some 2
          conflicts := some [⟨"cut 2 exits the block"⟩] })).map
        (fun r => r.conflictsShown)
      = some (((some [⟨"cut 2 exits the block"⟩] : Option (List JsConflict)).getD
          []).map (fun c => c.description))
    ∧ (buildCuttingTreeHTML (some
        { sequence := some
            [⟨1, "START", "block 100x50x30", ⟨some 0, some 150000⟩⟩,
             ⟨2, "CUT", "V at 40", ⟨some 1, none⟩⟩]
          total_nodes := some 3
          total_cuts := some 1
          total_items := some 2
          conflicts := some [⟨"cut 2 exits the block"⟩] })).map
        (fun r => r.noConflicts)
      = some ((((some [⟨"cut 2 exits the block"⟩] : Option (List JsConflict)).getD
          []).length == 0)) :=
  sequence_formatter_passthrough _ _ rfl

lemma ratFloor_eq_intFloor (y : Rat) : y.floor = ⌊y⌋ := by
  rw [Rat.floor_def', Rat.floor_def]

lemma jsRound_238 : jsRound (373 / 400 * 255 : Rat) = 238 := by
  unfold jsRound
  rw [ratFloor_eq_intFloor]
  exact Int.floor_eq_iff.mpr (by norm_num)

lemma jsRound_43 : jsRound (67 / 400 * 255 : Rat) = 43 := by
  unfold jsRound
  rw [ratFloor_eq_intFloor]
  exact Int.floor_eq_iff.mpr (by norm_num)

lemma jsRound_140 : jsRound (11 / 20 * 255 : Rat) = 140 := by
  unfold jsRound
  rw [ratFloor_eq_intFloor]
  exact Int.floor_eq_iff.mpr (by norm_num)

lemma toHexByte_ee : toHexByte (373 / 400) = "ee" := by
  simp only [toHexByte, jsRound_238]
  rfl

lemma toHexByte_2b : toHexByte (67 / 400) = "2b" := by
  simp only [toHexByte, jsRound_43]
  rfl

lemma toHexByte_8c : toHexByte (11 / 20) = "8c" := by
  simp only [toHexByte, jsRound_140]
  rfl

lemma strHash_two : strHash "2" = 50 := by decide

lemma getItemColor_two_zero : getItemColor "2" 0 = ((0 : Rat), 17 / 20, 11 / 20) := by
  norm_num [getItemColor, huePalette, strHash_two, jsAbs]

lemma hslToHex_hue_zero : hslToHex 0 (17 / 20) (11 / 20) = "#ee2b2b" := by
  norm_num [hslToHex, hue2rgb, toHexByte_ee, toHexByte_2b]
  decide

lemma hslToHex_hue_thirty : hslToHex (1 / 12) (17 / 20) (11 / 20) = "#ee8c2b" := by
  norm_num [hslToHex, hue2rgb, toHexByte_ee, toHexByte_2b, toHexByte_8c]
  decide

lemma getItemColorHex_two_one : getItemColorHex (.num 2) 1 = "#ee8c2b" := by
  have hk : (JId.num 2).toKey = "2" := rfl
  norm_num [getItemColorHex, huePalette, hk, strHash_two, jsAbs, hslToHex_hue_thirty]

/-- C9. The claim as stated is false: the color function is deterministic
and both views share one formula, but the 3D render indexes an item by its
first-seen position among placements while the table indexes by catalog
position. With catalog order (1, 2) and placement order (2, 1), item 2 gets
palette index 0 (hue 0) in the 3D view but palette index 1 (hue 30) in the
table, so the two views show different colors for the same item. -/
theorem color_views_counterexample :
    (renderColorMap [.num 2, .num 1]).lookup "2" = some (getItemColor "2" 0)
    ∧ (tableColorMap [⟨1, 100, 50, 30, 1⟩, ⟨2, 40, 40, 40, 1⟩]).lookup 2
        = some (getItemColorHex (.num 2) 1)
    ∧ getItemColorHex (.num 2) 1
        ≠ hslToHex (getItemColor "2" 0).1 (getItemColor "2" 0).2.1
            (getItemColor "2" 0).2.2 := by
  refine ⟨rfl, rfl, ?_⟩
  rw [getItemColorHex_two_one, getItemColor_two_zero]
  rw [hslToHex_hue_zero]
  decide

/-- C9 (amended). The color assignment is a pure deterministic function of
the identifier string and the index, and the 3D render and the tabular
report apply the identical palette-hash-HSL formula: for every id and index
the table's hex color equals the HSL-to-hex rendering of the 3D color
triple. The two views disagree only because the render passes the
first-seen placement index while the table passes the catalog position. -/
theorem color_views_amended (id : JId) (i : Nat) :
    getItemColorHex id i
      = hslToHex (getItemColor id.toKey i).1 (getItemColor id.toKey i).2.1
          (getItemColor id.toKey i).2.2 := rfl

